import Mathlib

/-!
# Manta AUV motion controller (`vortex_controller/src/controller_ros.cpp`)

A shallow embedding of the ROS controller node and proofs about its message
callbacks and its control tick.

## Modelling conventions

* A C++ `double` is a value of `Dbl`: a rational number, `+inf`, `-inf` or `NaN`.
  Comparisons follow IEEE 754 (every ordered comparison with `NaN` is false).
  Arithmetic on finite values is exact; rounding, overflow and the sign of zero are
  outside the model.
* `Eigen::Vector3d` and `Eigen::Vector6d` are functions from `Fin 3` and `Fin 6`.
* The member objects `m_state` and `m_setpoints` are records; a member function that
  mutates the controller is a function returning the new controller.
* What the node publishes or logs is not part of the controller state; the wrench
  published by a tick is returned next to the new state.
* Everything the translation unit takes from headers that are not part of it (the two
  tolerance constants, the PD controller, Eigen's quaternion conversions) is collected
  in `Env`; the general theorems hold for every environment, and concrete inputs are
  evaluated in the sample environments `sampleEnv` and `lossyEnv`.
-/

namespace Manta

/-! ## Scalars -/

/-- A C++ `double`: a finite (rational) value, an infinity or NaN. -/
inductive Dbl where
  | fin (q : ℚ)
  | pinf
  | ninf
  | nan
  deriving DecidableEq

namespace Dbl

/-- The literal `0`. -/
def zero : Dbl := fin 0

/-- The literal `1`. -/
def one : Dbl := fin 1

/-- The operator `<` on doubles: false as soon as one side is NaN. -/
def lt : Dbl → Dbl → Bool
  | fin a, fin b => decide (a < b)
  | fin _, pinf => true
  | ninf, fin _ => true
  | ninf, pinf => true
  | _, _ => false

/-- The operator `>` on doubles. -/
def gt (a b : Dbl) : Bool := lt b a

/-- The operator `<=` on doubles: false as soon as one side is NaN. -/
def le : Dbl → Dbl → Bool
  | fin a, fin b => decide (a ≤ b)
  | fin _, pinf => true
  | ninf, fin _ => true
  | ninf, pinf => true
  | pinf, pinf => true
  | ninf, ninf => true
  | _, _ => false

/-- Unary minus. -/
def neg : Dbl → Dbl
  | fin a => fin (-a)
  | pinf => ninf
  | ninf => pinf
  | nan => nan

/-- The operator `+` on doubles (exact on finite values). -/
def add : Dbl → Dbl → Dbl
  | fin a, fin b => fin (a + b)
  | nan, _ => nan
  | _, nan => nan
  | pinf, ninf => nan
  | ninf, pinf => nan
  | pinf, _ => pinf
  | _, pinf => pinf
  | ninf, _ => ninf
  | _, ninf => ninf

/-- The operator `-` on doubles. -/
def sub (a b : Dbl) : Dbl := add a (neg b)

/-- The operator `*` on doubles (exact on finite values). -/
def mul : Dbl → Dbl → Dbl
  | fin a, fin b => fin (a * b)
  | nan, _ => nan
  | _, nan => nan
  | fin a, pinf => if a = 0 then nan else if 0 < a then pinf else ninf
  | fin a, ninf => if a = 0 then nan else if 0 < a then ninf else pinf
  | pinf, fin b => if b = 0 then nan else if 0 < b then pinf else ninf
  | ninf, fin b => if b = 0 then nan else if 0 < b then ninf else pinf
  | pinf, pinf => pinf
  | ninf, ninf => pinf
  | pinf, ninf => ninf
  | ninf, pinf => ninf

/-- The functions `fabs` and `std::abs(double)`. -/
def fabs : Dbl → Dbl
  | fin a => fin |a|
  | pinf => pinf
  | ninf => pinf
  | nan => nan

/-- The value is NaN. -/
def isNaN : Dbl → Bool
  | nan => true
  | _ => false

/-- The value is `+inf` or `-inf`. -/
def isInf : Dbl → Bool
  | pinf => true
  | ninf => true
  | _ => false

/-- The value is neither NaN nor infinite. -/
def isFinite (a : Dbl) : Bool := !(isNaN a || isInf a)

end Dbl

/-! ## Vectors and quaternions -/

/-- The type `Eigen::Vector3d`. -/
abbrev Vector3d := Fin 3 → Dbl

/-- The type `Eigen::Vector6d`. -/
abbrev Vector6d := Fin 6 → Dbl

/-- The type `Eigen::Quaterniond`, coefficients `w`, `x`, `y`, `z`. -/
structure Quaterniond where
  w : Dbl
  x : Dbl
  y : Dbl
  z : Dbl
  deriving DecidableEq

/-- The vector `Eigen::Vector3d::Zero()`. -/
def Vector3d.Zero : Vector3d := fun _ => Dbl.zero

/-- The vector `Eigen::VectorXd::Zero(6)`, also the result of `setZero()`. -/
def Vector6d.Zero : Vector6d := fun _ => Dbl.zero

/-- The quaternion `Eigen::Quaterniond::Identity()`. -/
def Quaterniond.Identity : Quaterniond := ⟨Dbl.one, Dbl.zero, Dbl.zero, Dbl.zero⟩

/-- Component-wise `operator+` on `Eigen::Vector6d`. -/
def Vector6d.add (a b : Vector6d) : Vector6d := fun i => Dbl.add (a i) (b i)

/-- Modelled from the spec: `isFucked` of `vortex/eigen_helper.h`, which is not part of
the translation unit. The spec (4.1) has a sample rejected when "any scalar in position
or velocity is NaN/Infinite". -/
def isFucked {n : Nat} (X : Fin n → Dbl) : Bool :=
  (List.finRange n).any fun i => Dbl.isNaN (X i) || Dbl.isInf (X i)

/-! ## Enumerations -/

/-- Modelled from the spec: the enumeration `ControlModes::ControlMode` of the
controller's header, in the order in which the spec (3) lists the six modes. A mode is
kept as its underlying integer, so that `static_cast<ControlMode>(i)` is `i` and a value
outside the enumeration can be expressed. -/
abbrev ControlMode := Nat

namespace ControlModes

/-- Pure open-loop thrust. -/
def OPEN_LOOP : ControlMode := 0

/-- Open loop with hydrostatic compensation. -/
def OPEN_LOOP_RESTORING : ControlMode := 1

/-- Attitude levelling. -/
def STAY_LEVEL : ControlMode := 2

/-- Depth holding. -/
def DEPTH_HOLD : ControlMode := 3

/-- Heading holding. -/
def HEADING_HOLD : ControlMode := 4

/-- Combined depth and heading holding. -/
def DEPTH_HEADING_HOLD : ControlMode := 5

/-- The number of control modes. -/
def CONTROL_MODE_END : Nat := 6

end ControlModes

/-- Modelled from the spec: the enumeration `PoseIndex` of the controller's header; the
six axes of a wrench in the order force (surge, sway, heave), torque (roll, pitch, yaw),
as `updateSetpoint` uses them (`axis` for a position, `axis-3` for an Euler angle). -/
inductive PoseIndex where
  | SURGE
  | SWAY
  | HEAVE
  | ROLL
  | PITCH
  | YAW
  deriving DecidableEq

/-- The integer value of a `PoseIndex`, as an index of a 6-vector. -/
def PoseIndex.idx : PoseIndex → Fin 6
  | .SURGE => 0
  | .SWAY => 1
  | .HEAVE => 2
  | .ROLL => 3
  | .PITCH => 4
  | .YAW => 5

/-! ## Messages -/

/-- Modelled from the spec: the message `vortex_msgs::PropulsionCommand` (6): six real
`motion` values and a boolean selector vector `control_mode` of any length. -/
structure PropulsionCommand where
  motion : Vector6d
  control_mode : List Bool

/-- Modelled from the spec: the message `vortex_msgs::RovState` (6): position,
orientation quaternion and 6-vector velocity (`msg.pose.position`,
`msg.pose.orientation`, `msg.twist`). -/
structure RovState where
  position : Vector3d
  orientation : Quaterniond
  twist : Vector6d

/-! ## The data holders -/

/-- Modelled from the spec: the class `State` (StateEstimate, 2 and 3) holds the latest
position, orientation and velocity; `set` overwrites the three together and the getters
deliver the stored values. -/
structure State where
  position : Vector3d
  orientation : Quaterniond
  velocity : Vector6d

/-- Modelled from the spec: the class `Setpoints` (SetpointStore, 2 and 3) holds the
desired position, the desired orientation and the open-loop wrench pass-through. -/
structure Setpoints where
  position : Vector3d
  orientation : Quaterniond
  wrench : Vector6d

/-- Modelled from the spec: `State::set(position, orientation, velocity)`. -/
def State.set (_s : State) (position : Vector3d) (orientation : Quaterniond)
    (velocity : Vector6d) : State :=
  ⟨position, orientation, velocity⟩

/-- Modelled from the spec: `Setpoints::set(position, orientation)`. -/
def Setpoints.set (s : Setpoints) (position : Vector3d) (orientation : Quaterniond) :
    Setpoints :=
  { s with position := position, orientation := orientation }

/-- Modelled from the spec: `Setpoints::set(position)`. -/
def Setpoints.setPosition (s : Setpoints) (position : Vector3d) : Setpoints :=
  { s with position := position }

/-- Modelled from the spec: `Setpoints::set(orientation)`. -/
def Setpoints.setOrientation (s : Setpoints) (orientation : Quaterniond) : Setpoints :=
  { s with orientation := orientation }

/-- Modelled from the spec: `Setpoints::update(command)`; the spec (4.2) has the store's
open-loop wrench pass-through updated "to the incoming 6-vector". -/
def Setpoints.update (s : Setpoints) (command : Vector6d) : Setpoints :=
  { s with wrench := command }

/-! ## The environment of the translation unit -/

/-- What `controller_ros.cpp` uses and does not define. -/
structure Env where
  /-- The constant `c_normalized_force_deadzone` of the controller's header. -/
  c_normalized_force_deadzone : Dbl
  /-- The constant `c_max_quat_norm_deviation` of the controller's header. -/
  c_max_quat_norm_deviation : Dbl
  /-- The function `Eigen::Quaterniond::norm`. -/
  norm : Quaterniond → Dbl
  /-- The function `QuaternionPdController::getRestoring`. -/
  getRestoring : Quaterniond → Vector6d
  /-- The function `QuaternionPdController::getFeedback` (position state, orientation
  state, velocity state, position setpoint, orientation setpoint), at the gains in
  force. -/
  getFeedback : Vector3d → Quaterniond → Vector6d → Vector3d → Quaterniond → Vector6d
  /-- The conversion `q.toRotationMatrix().eulerAngles(2, 1, 0)`. -/
  eulerAngles : Quaterniond → Vector3d
  /-- The quaternion of the rotation
  `AngleAxisd(a2, UnitZ()) * AngleAxisd(a1, UnitY()) * AngleAxisd(a0, UnitX())`, given
  `a2`, `a1`, `a0` in this order. -/
  fromAngleAxisZYX : Dbl → Dbl → Dbl → Quaterniond
  /-- The Euler-angle view `State::getEuler` of the stored orientation. -/
  stateGetEuler : Quaterniond → Vector3d
  /-- The Euler-angle view `Setpoints::getEuler` of the desired orientation. -/
  setpointsGetEuler : Quaterniond → Vector3d
  /-- The index `EULER_YAW` of the controller's header. -/
  EULER_YAW : Fin 3
  /-- The index `EULER_PITCH` of the controller's header. -/
  EULER_PITCH : Fin 3
  /-- The index `EULER_ROLL` of the controller's header. -/
  EULER_ROLL : Fin 3

/-! ## The controller -/

/-- The mutable members of `Controller` that the callbacks and the tick read or write. -/
structure Controller where
  m_control_mode : ControlMode
  m_state : State
  m_setpoints : Setpoints

/-- The function `Controller::healthyMessage`. -/
def healthyMessage (msg : PropulsionCommand) : Bool :=
  -- Check that motion commands are in range
  if (List.finRange 6).any
      (fun i => Dbl.gt (msg.motion i) (Dbl.fin 1) || Dbl.lt (msg.motion i) (Dbl.fin (-1))) then
    false
  -- Check correct length of control mode vector
  else if msg.control_mode.length ≠ ControlModes.CONTROL_MODE_END then
    false
  -- Check that exactly zero or one control mode is requested
  else if msg.control_mode.count true > 1 then
    false
  else
    true

/-- The loop of `Controller::getControlMode`, entered at index `i` with the rest `bits`
of the selector vector: the first set bit decides and ends the loop. -/
def getControlModeLoop (new_control_mode : ControlMode) : List Bool → Nat → ControlMode
  | [], _ => new_control_mode
  | b :: bits, i => if b then i else getControlModeLoop new_control_mode bits (i + 1)

/-- The function `Controller::getControlMode` (a `const` member function: it returns a
mode and leaves the controller as it is). -/
def getControlMode (c : Controller) (msg : PropulsionCommand) : ControlMode :=
  getControlModeLoop c.m_control_mode msg.control_mode 0

/-- The function `Controller::resetSetpoints`: the setpoints become the state. -/
def resetSetpoints (c : Controller) : Controller :=
  { c with m_setpoints := c.m_setpoints.set c.m_state.position c.m_state.orientation }

/-- The function `Controller::commandCallback`. -/
def commandCallback (c : Controller) (msg : PropulsionCommand) : Controller :=
  if !healthyMessage msg then
    c
  else
    let new_control_mode := getControlMode c msg
    let c1 :=
      if new_control_mode ≠ c.m_control_mode then
        resetSetpoints { c with m_control_mode := new_control_mode }
      else
        c
    let command : Vector6d := fun i => msg.motion i
    { c1 with m_setpoints := c1.m_setpoints.update command }

/-- The function `Controller::stateCallback`. The call `abs(orientation.norm() - 1)` has
a `double` argument and is the floating-point absolute value that `<math.h>` declares
for C++. -/
def stateCallback (env : Env) (c : Controller) (msg : RovState) : Controller :=
  let position := msg.position
  let orientation := msg.orientation
  let velocity := msg.twist
  let orientation_invalid :=
    Dbl.gt (Dbl.fabs (Dbl.sub (env.norm orientation) (Dbl.fin 1))) env.c_max_quat_norm_deviation
  if isFucked position || isFucked velocity || orientation_invalid then
    c
  else
    { c with m_state := c.m_state.set position orientation velocity }

/-- The function `Controller::updateSetpoint`. -/
def updateSetpoint (env : Env) (c : Controller) (axis : PoseIndex) : Controller :=
  let onPosition (k : Fin 3) : Controller :=
    let state := c.m_state.position
    let setpoint := c.m_setpoints.position
    let setpoint := Function.update setpoint k (state k)
    { c with m_setpoints := c.m_setpoints.setPosition setpoint }
  let onEuler (k : Fin 3) : Controller :=
    let state := env.stateGetEuler c.m_state.orientation
    let setpoint := env.setpointsGetEuler c.m_setpoints.orientation
    let setpoint := Function.update setpoint k (state k)
    let quaternion_setpoint := env.fromAngleAxisZYX (setpoint 2) (setpoint 1) (setpoint 0)
    { c with m_setpoints := c.m_setpoints.setOrientation quaternion_setpoint }
  match axis with
  | .SURGE => onPosition 0
  | .SWAY => onPosition 1
  | .HEAVE => onPosition 2
  | .ROLL => onEuler 0
  | .PITCH => onEuler 1
  | .YAW => onEuler 2

/-- The function `Controller::stayLevel`. -/
def stayLevel (env : Env) (orientation_state : Quaterniond) (velocity_state : Vector6d) :
    Vector6d :=
  let euler := env.eulerAngles orientation_state
  let euler := Function.update euler env.EULER_PITCH Dbl.zero
  let euler := Function.update euler env.EULER_ROLL Dbl.zero
  let orientation_staylevel :=
    env.fromAngleAxisZYX (euler env.EULER_YAW) (euler env.EULER_PITCH) (euler env.EULER_ROLL)
  let tau := env.getFeedback Vector3d.Zero orientation_state velocity_state
    Vector3d.Zero orientation_staylevel
  let tau := Function.update tau PoseIndex.ROLL.idx Dbl.zero
  let tau := Function.update tau PoseIndex.PITCH.idx Dbl.zero
  tau

/-- The function `Controller::depthHold`; it returns the controller, whose setpoints it
may have recentred, and the hold wrench. -/
def depthHold (env : Env) (c : Controller) (tau_openloop : Vector6d)
    (position_state : Vector3d) (_orientation_state : Quaterniond)
    (velocity_state : Vector6d) (position_setpoint : Vector3d) : Controller × Vector6d :=
  let activate_depthhold :=
    Dbl.lt (Dbl.fabs (tau_openloop PoseIndex.HEAVE.idx)) env.c_normalized_force_deadzone
  if activate_depthhold then
    let tau := env.getFeedback position_state Quaterniond.Identity velocity_state
      position_setpoint Quaterniond.Identity
    -- Allow only heave feedback command
    let tau := Function.update tau PoseIndex.SURGE.idx Dbl.zero
    let tau := Function.update tau PoseIndex.SWAY.idx Dbl.zero
    let tau := Function.update tau PoseIndex.ROLL.idx Dbl.zero
    let tau := Function.update tau PoseIndex.PITCH.idx Dbl.zero
    let tau := Function.update tau PoseIndex.YAW.idx Dbl.zero
    (c, tau)
  else
    (updateSetpoint env c PoseIndex.HEAVE, Vector6d.Zero)

/-- The function `Controller::headingHold`; it returns the controller, whose setpoints
it may have recentred, and the hold wrench. -/
def headingHold (env : Env) (c : Controller) (tau_openloop : Vector6d)
    (_position_state : Vector3d) (orientation_state : Quaterniond)
    (velocity_state : Vector6d) (orientation_setpoint : Quaterniond) :
    Controller × Vector6d :=
  let activate_headinghold :=
    Dbl.lt (Dbl.fabs (tau_openloop PoseIndex.YAW.idx)) env.c_normalized_force_deadzone
  if activate_headinghold then
    let tau := env.getFeedback Vector3d.Zero orientation_state velocity_state
      Vector3d.Zero orientation_setpoint
    -- Allow only yaw feedback command
    let tau := Function.update tau PoseIndex.SURGE.idx Dbl.zero
    let tau := Function.update tau PoseIndex.SWAY.idx Dbl.zero
    let tau := Function.update tau PoseIndex.HEAVE.idx Dbl.zero
    let tau := Function.update tau PoseIndex.ROLL.idx Dbl.zero
    let tau := Function.update tau PoseIndex.PITCH.idx Dbl.zero
    (c, tau)
  else
    (updateSetpoint env c PoseIndex.YAW, Vector6d.Zero)

/-- One iteration of the loop of `Controller::spin`, from the snapshot of state and
setpoints to the published `tau_command`: the controller after the tick and the wrench
it publishes. -/
def spinTick (env : Env) (c : Controller) : Controller × Vector6d :=
  let position_state := c.m_state.position
  let orientation_state := c.m_state.orientation
  let velocity_state := c.m_state.velocity
  let position_setpoint := c.m_setpoints.position
  let orientation_setpoint := c.m_setpoints.orientation
  let tau_openloop := c.m_setpoints.wrench
  -- tau_command.setZero()
  let tau_command := Vector6d.Zero
  -- switch (m_control_mode)
  if c.m_control_mode = ControlModes.OPEN_LOOP then
    (c, tau_openloop)
  else if c.m_control_mode = ControlModes.OPEN_LOOP_RESTORING then
    let tau_restoring := env.getRestoring orientation_state
    (c, Vector6d.add tau_openloop tau_restoring)
  else if c.m_control_mode = ControlModes.STAY_LEVEL then
    let tau_staylevel := stayLevel env orientation_state velocity_state
    (c, Vector6d.add tau_openloop tau_staylevel)
  else if c.m_control_mode = ControlModes.DEPTH_HOLD then
    let r := depthHold env c tau_openloop position_state orientation_state velocity_state
      position_setpoint
    (r.1, Vector6d.add tau_openloop r.2)
  else if c.m_control_mode = ControlModes.HEADING_HOLD then
    let r := headingHold env c tau_openloop position_state orientation_state velocity_state
      orientation_setpoint
    (r.1, Vector6d.add tau_openloop r.2)
  else if c.m_control_mode = ControlModes.DEPTH_HEADING_HOLD then
    let d := depthHold env c tau_openloop position_state orientation_state velocity_state
      position_setpoint
    let h := headingHold env d.1 tau_openloop position_state orientation_state
      velocity_state orientation_setpoint
    (h.1, Vector6d.add (Vector6d.add tau_openloop d.2) h.2)
  else
    -- default: tau_command is still the zero vector
    (c, tau_command)

/-- The composite wrench that a tick publishes when it runs in control mode `mode`, on
the state, the setpoints and the open-loop wrench held by `c`. -/
def compositeWrench (env : Env) (c : Controller) (mode : ControlMode) : Vector6d :=
  (spinTick env { c with m_control_mode := mode }).2

/-- Component-wise `operator-` on `Eigen::Vector6d`. -/
def Vector6d.sub (a b : Vector6d) : Vector6d := fun i => Dbl.sub (a i) (b i)

/-- The members set by the constructor `Controller::Controller`: the control mode
starts as `OPEN_LOOP`; the contents of the freshly made `State` and `Setpoints` are
whatever those classes start with. -/
def initialController (state : State) (setpoints : Setpoints) : Controller where
  m_control_mode := ControlModes.OPEN_LOOP
  m_state := state
  m_setpoints := setpoints

/-- What the node's single thread handles between two sleeps of `spin`: a command
message, a state message, or one iteration of the loop. -/
inductive Event where
  | command (msg : PropulsionCommand)
  | state (msg : RovState)
  | tick

/-- The controller after one event. -/
def step (env : Env) (c : Controller) : Event → Controller
  | .command msg => commandCallback c msg
  | .state msg => stateCallback env c msg
  | .tick => (spinTick env c).1

/-- The controller after a finite sequence of events, handled in order. -/
def run (env : Env) (c : Controller) (events : List Event) : Controller :=
  events.foldl (step env) c

/-! ## Sample inputs -/

/-- A stand-in for `std::sqrt`, exact on the squares of rationals. -/
def sampleSqrt : Dbl → Dbl
  | Dbl.fin q => if q < 0 then Dbl.nan else Dbl.fin (Rat.sqrt q)
  | Dbl.pinf => Dbl.pinf
  | Dbl.ninf => Dbl.nan
  | Dbl.nan => Dbl.nan

/-- A sample environment: the tolerances the spec gives as examples, the Euclidean norm,
a restoring wrench along heave, a feedback wrench that is one on every axis, and Euler
angles kept in the vector part of the quaternion. -/
def sampleEnv : Env where
  c_normalized_force_deadzone := Dbl.fin (1 / 20)
  c_max_quat_norm_deviation := Dbl.fin (1 / 1000)
  norm := fun q =>
    sampleSqrt (Dbl.add (Dbl.add (Dbl.add (Dbl.mul q.w q.w) (Dbl.mul q.x q.x))
      (Dbl.mul q.y q.y)) (Dbl.mul q.z q.z))
  getRestoring := fun _ => ![Dbl.fin 0, Dbl.fin 0, Dbl.fin 3, Dbl.fin 0, Dbl.fin 0, Dbl.fin 0]
  getFeedback := fun _ _ _ _ _ => fun _ => Dbl.fin 1
  eulerAngles := fun q => ![q.z, q.y, q.x]
  fromAngleAxisZYX := fun a2 a1 a0 => ⟨Dbl.fin 1, a0, a1, a2⟩
  stateGetEuler := fun q => ![q.x, q.y, q.z]
  setpointsGetEuler := fun q => ![q.x, q.y, q.z]
  EULER_YAW := 0
  EULER_PITCH := 1
  EULER_ROLL := 2

/-- A sample controller in `OPEN_LOOP`: the vehicle at depth 2 with heading angle 1/2,
the setpoints at the origin. -/
def sampleController : Controller where
  m_control_mode := ControlModes.OPEN_LOOP
  m_state :=
    { position := ![Dbl.fin 4, Dbl.fin 5, Dbl.fin 2]
      orientation := ⟨Dbl.fin 1, Dbl.fin 0, Dbl.fin 0, Dbl.fin (1 / 2)⟩
      velocity := fun _ => Dbl.fin 0 }
  m_setpoints :=
    { position := fun _ => Dbl.fin 0
      orientation := Quaterniond.Identity
      wrench := fun _ => Dbl.fin 0 }

/-- A well-formed command that selects `DEPTH_HOLD`. -/
def depthHoldCommand : PropulsionCommand where
  motion := ![Dbl.fin (1 / 2), Dbl.fin 0, Dbl.fin 0, Dbl.fin 0, Dbl.fin 0, Dbl.fin (-1)]
  control_mode := [false, false, false, true, false, false]

/-- A command with two selector bits set. -/
def twoModesCommand : PropulsionCommand where
  motion := fun _ => Dbl.fin 0
  control_mode := [false, false, true, true, false, false]

/-- A command that selects `DEPTH_HOLD` and whose surge component is 2. -/
def outOfRangeCommand : PropulsionCommand where
  motion := ![Dbl.fin 2, Dbl.fin 0, Dbl.fin 0, Dbl.fin 0, Dbl.fin 0, Dbl.fin 0]
  control_mode := [false, false, false, true, false, false]

/-- A state sample whose depth is NaN. -/
def nanPositionSample : RovState where
  position := ![Dbl.fin 0, Dbl.fin 0, Dbl.nan]
  orientation := Quaterniond.Identity
  twist := fun _ => Dbl.fin 0

/-- A state sample whose orientation quaternion has norm 3/2. -/
def longQuaternionSample : RovState where
  position := ![Dbl.fin 0, Dbl.fin 0, Dbl.fin 1]
  orientation := ⟨Dbl.fin (3 / 2), Dbl.fin 0, Dbl.fin 0, Dbl.fin 0⟩
  twist := fun _ => Dbl.fin 0

/-- A valid state sample: depth 3, a quaternion of norm 1, some forward speed. -/
def validSample : RovState where
  position := ![Dbl.fin 1, Dbl.fin (-1), Dbl.fin 3]
  orientation := ⟨Dbl.fin 0, Dbl.fin 0, Dbl.fin 0, Dbl.fin (-1)⟩
  twist := ![Dbl.fin (1 / 4), Dbl.fin 0, Dbl.fin 0, Dbl.fin 0, Dbl.fin 0, Dbl.fin 0]

/-- The sample controller with the operator driving surge at full scale. -/
def drivingController : Controller :=
  { sampleController with
    m_setpoints :=
      { sampleController.m_setpoints with
        wrench := ![Dbl.fin 1, Dbl.fin 0, Dbl.fin 0, Dbl.fin 0, Dbl.fin 0, Dbl.fin 0] } }

/-- An open-loop wrench inside the deadzone on every axis. -/
def restingWrench : Vector6d := fun _ => Dbl.fin 0

/-- The sample controller with a control mode outside the enumeration. -/
def strayModeController : Controller :=
  { sampleController with m_control_mode := 7 }

/-- A state sample whose orientation quaternion has a NaN coefficient; position and
velocity are finite. -/
def nanOrientationSample : RovState where
  position := ![Dbl.fin 1, Dbl.fin (-1), Dbl.fin 3]
  orientation := ⟨Dbl.nan, Dbl.fin 0, Dbl.fin 0, Dbl.fin 0⟩
  twist := fun _ => Dbl.fin 0

/-- A command that selects `DEPTH_HOLD` and whose surge component is NaN. -/
def nanMotionCommand : PropulsionCommand where
  motion := ![Dbl.nan, Dbl.fin 0, Dbl.fin 0, Dbl.fin 0, Dbl.fin 0, Dbl.fin 0]
  control_mode := [false, false, false, true, false, false]

/-- A well-formed command that names `OPEN_LOOP`, the mode of the sample controller. -/
def openLoopCommand : PropulsionCommand where
  motion := ![Dbl.fin 0, Dbl.fin 1, Dbl.fin 0, Dbl.fin 0, Dbl.fin 0, Dbl.fin 0]
  control_mode := [true, false, false, false, false, false]

/-- A selector vector of length four with two bits set, the lowest at index 1. -/
def shortSelectorCommand : PropulsionCommand where
  motion := fun _ => Dbl.fin 0
  control_mode := [false, true, false, true]

/-- A selector vector without a set bit. -/
def emptySelectorCommand : PropulsionCommand where
  motion := fun _ => Dbl.fin 0
  control_mode := [false, false, false]

theorem getControlModeLoop_first (cur : ControlMode) (bits : List Bool) (i j : Nat)
    (hj : bits[j]? = some true) (hlow : ∀ k, k < j → bits[k]? = some false) :
    getControlModeLoop cur bits i = i + j := by
  induction bits generalizing i j with
  | nil => simp at hj
  | cons b bs ih =>
    cases j with
    | zero =>
      simp only [List.getElem?_cons_zero, Option.some.injEq] at hj
      simp [getControlModeLoop, hj]
    | succ j =>
      have hb : b = false := by
        have := hlow 0 (Nat.succ_pos j)
        simpa using this
      have hrest : ∀ k, k < j → bs[k]? = some false := by
        intro k hk
        have := hlow (k + 1) (Nat.succ_lt_succ hk)
        simpa using this
      have hj2 : bs[j]? = some true := by simpa using hj
      simp only [getControlModeLoop, hb, Bool.false_eq_true, if_false]
      rw [ih (i + 1) j hj2 hrest]
      exact Nat.add_right_comm i 1 j

theorem getControlModeLoop_none (cur : ControlMode) (bits : List Bool) (i : Nat)
    (h : ∀ b ∈ bits, b = false) : getControlModeLoop cur bits i = cur := by
  induction bits generalizing i with
  | nil => rfl
  | cons b bs ih =>
    have hb : b = false := h b (List.mem_cons_self b bs)
    simp only [getControlModeLoop, hb, Bool.false_eq_true, if_false]
    exact ih (i + 1) (fun x hx => h x (List.mem_cons_of_mem b hx))

theorem count_true_le_one_unique (bits : List Bool) (hc : bits.count true ≤ 1) (j k : Nat)
    (hj : bits[j]? = some true) (hk : k < j) : bits[k]? = some false := by
  induction bits generalizing j k with
  | nil => simp at hj
  | cons b bs ih =>
    cases j with
    | zero => omega
    | succ j =>
      have hj2 : bs[j]? = some true := by simpa using hj
      have hmem : true ∈ bs := List.getElem?_mem hj2
      have hpos : 0 < bs.count true := List.count_pos_iff.mpr hmem
      cases b with
      | true =>
        simp only [List.count_cons_self] at hc
        omega
      | false =>
        have hc2 : bs.count true ≤ 1 := by simpa using hc
        cases k with
        | zero => simp
        | succ k =>
          have := ih hc2 j k hj2 (Nat.lt_of_succ_lt_succ hk)
          simpa using this

theorem healthyMessage_count (msg : PropulsionCommand) (h : healthyMessage msg = true) :
    msg.control_mode.count true ≤ 1 := by
  unfold healthyMessage at h
  split_ifs at h with h1 h2 h3
  exact Nat.le_of_not_gt h3

/-! ## Lemmas on the command callback -/

theorem Dbl.lt_false_of_le (a b : Dbl) (h : Dbl.le a b = true) : Dbl.lt b a = false := by
  cases a <;> cases b <;> simp_all [Dbl.le, Dbl.lt]

theorem healthyMessage_of_wellFormed (msg : PropulsionCommand)
    (hm : ∀ i : Fin 6, Dbl.le (Dbl.fin (-1)) (msg.motion i) = true ∧
      Dbl.le (msg.motion i) (Dbl.fin 1) = true)
    (hl : msg.control_mode.length = ControlModes.CONTROL_MODE_END)
    (hc : msg.control_mode.count true ≤ 1) :
    healthyMessage msg = true := by
  unfold healthyMessage
  have h1 : ¬ ((List.finRange 6).any (fun i => Dbl.gt (msg.motion i) (Dbl.fin 1) ||
      Dbl.lt (msg.motion i) (Dbl.fin (-1))) = true) := by
    rw [List.any_eq_true]
    rintro ⟨i, _, hi⟩
    have h2 := Dbl.lt_false_of_le _ _ (hm i).1
    have h3 := Dbl.lt_false_of_le _ _ (hm i).2
    simp [Dbl.gt, h2, h3] at hi
  rw [if_neg h1, if_neg (not_not.mpr hl), if_neg (Nat.not_lt.mpr hc)]

theorem healthyMessage_false_of_malformed (msg : PropulsionCommand)
    (h : 2 ≤ msg.control_mode.count true ∨
      (∃ i : Fin 6, Dbl.gt (msg.motion i) (Dbl.fin 1) = true ∨
        Dbl.lt (msg.motion i) (Dbl.fin (-1)) = true) ∨
      msg.control_mode.length ≠ ControlModes.CONTROL_MODE_END) :
    healthyMessage msg = false := by
  unfold healthyMessage
  split_ifs with h1 h2 h3
  · rfl
  · rfl
  · rfl
  · exfalso
    rcases h with hc | ⟨i, hi⟩ | hl
    · exact h3 hc
    · apply h1
      rw [List.any_eq_true]
      exact ⟨i, List.mem_finRange i, by simpa using hi⟩
    · exact h2 hl

theorem commandCallback_of_healthy (c : Controller) (msg : PropulsionCommand)
    (h : healthyMessage msg = true) :
    commandCallback c msg =
      if getControlMode c msg ≠ c.m_control_mode then
        { m_control_mode := getControlMode c msg
          m_state := c.m_state
          m_setpoints :=
            { position := c.m_state.position
              orientation := c.m_state.orientation
              wrench := msg.motion } }
      else
        { c with m_setpoints := { c.m_setpoints with wrench := msg.motion } } := by
  unfold commandCallback
  simp only [h, Bool.not_true, Bool.false_eq_true, if_false]
  split_ifs with hm
  · rfl
  · rfl

theorem commandCallback_mode_of_healthy (c : Controller) (msg : PropulsionCommand)
    (h : healthyMessage msg = true) :
    (commandCallback c msg).m_control_mode = getControlMode c msg := by
  rw [commandCallback_of_healthy c msg h]
  split_ifs with hm
  · rfl
  · exact (not_not.mp hm).symm

/-! ## The command callback -/

/-- C1. For every command that passes `healthyMessage`, after `commandCallback` the
control mode is the mode whose selector bit is set, and the prior mode when no bit is
set; the state estimate is the one before the call; and if the mode differs from the
prior mode, the desired position and orientation of the setpoints equal the position
and orientation of the state estimate. -/
theorem commandCallback_selects_mode (c : Controller) (msg : PropulsionCommand)
    (h : healthyMessage msg = true) :
    (∀ i : Nat, msg.control_mode[i]? = some true →
      (commandCallback c msg).m_control_mode = i) ∧
    ((∀ b ∈ msg.control_mode, b = false) →
      (commandCallback c msg).m_control_mode = c.m_control_mode) ∧
    (commandCallback c msg).m_state = c.m_state ∧
    ((commandCallback c msg).m_control_mode ≠ c.m_control_mode →
      (commandCallback c msg).m_setpoints.position =
        (commandCallback c msg).m_state.position ∧
      (commandCallback c msg).m_setpoints.orientation =
        (commandCallback c msg).m_state.orientation) := by
  refine ⟨?_, ?_, ?_, ?_⟩
  · intro i hi
    rw [commandCallback_mode_of_healthy c msg h]
    have hlow := count_true_le_one_unique msg.control_mode (healthyMessage_count msg h) i
    have := getControlModeLoop_first c.m_control_mode msg.control_mode 0 i hi
      (fun k hk => hlow k hi hk)
    simpa [getControlMode] using this
  · intro hnone
    rw [commandCallback_mode_of_healthy c msg h]
    exact getControlModeLoop_none c.m_control_mode msg.control_mode 0 hnone
  · rw [commandCallback_of_healthy c msg h]
    split_ifs with hm
    · rfl
    · rfl
  · intro hne
    rw [commandCallback_mode_of_healthy c msg h] at hne
    rw [commandCallback_of_healthy c msg h, if_pos hne]
    exact ⟨rfl, rfl⟩

/-- Witness of C1 on the sample controller and a command that selects `DEPTH_HOLD`. -/
theorem commandCallback_selects_mode_witness :
    healthyMessage depthHoldCommand = true ∧
    (commandCallback sampleController depthHoldCommand).m_control_mode =
      ControlModes.DEPTH_HOLD ∧
    (commandCallback sampleController depthHoldCommand).m_setpoints.position =
      sampleController.m_state.position :=
  have h : healthyMessage depthHoldCommand = true := by
    norm_num [healthyMessage, depthHoldCommand, Fin.forall_fin_succ, Dbl.gt, Dbl.lt,
      ControlModes.CONTROL_MODE_END]
  have t := commandCallback_selects_mode sampleController depthHoldCommand h
  ⟨h, t.1 3 rfl, by
    have hm : (commandCallback sampleController depthHoldCommand).m_control_mode ≠
        sampleController.m_control_mode := by
      rw [t.1 3 rfl]; decide
    rw [(t.2.2.2 hm).1, t.2.2.1]⟩

/-- C2. For every command with two or more selector bits set, or with a motion
component greater than 1 or less than -1, or with a selector vector whose length differs
from the mode count, `commandCallback` returns the controller as it was: the control
mode, the desired pose and the open-loop wrench are unchanged. -/
theorem commandCallback_drops_malformed (c : Controller) (msg : PropulsionCommand)
    (h : 2 ≤ msg.control_mode.count true ∨
      (∃ i : Fin 6, Dbl.gt (msg.motion i) (Dbl.fin 1) = true ∨
        Dbl.lt (msg.motion i) (Dbl.fin (-1)) = true) ∨
      msg.control_mode.length ≠ ControlModes.CONTROL_MODE_END) :
    commandCallback c msg = c := by
  unfold commandCallback
  rw [healthyMessage_false_of_malformed msg h]
  rfl

/-- Witness of C2: a command with two bits set and a command with a component of 2. -/
theorem commandCallback_drops_malformed_witness :
    (2 ≤ twoModesCommand.control_mode.count true ∧
      commandCallback sampleController twoModesCommand = sampleController) ∧
    (Dbl.gt (outOfRangeCommand.motion 0) (Dbl.fin 1) = true ∧
      commandCallback sampleController outOfRangeCommand = sampleController) :=
  ⟨⟨by decide,
      commandCallback_drops_malformed sampleController twoModesCommand (Or.inl (by decide))⟩,
    ⟨by decide,
      commandCallback_drops_malformed sampleController outOfRangeCommand
        (Or.inr (Or.inl ⟨0, Or.inl (by decide)⟩))⟩⟩

/-! ## The state callback -/

theorem isFucked_eq_true_iff {n : Nat} (X : Fin n → Dbl) :
    isFucked X = true ↔ ∃ i, Dbl.isNaN (X i) = true ∨ Dbl.isInf (X i) = true := by
  simp [isFucked, List.any_eq_true]

theorem isFucked_eq_false_of_finite {n : Nat} (X : Fin n → Dbl)
    (h : ∀ i, Dbl.isFinite (X i) = true) : isFucked X = false := by
  rw [← Bool.not_eq_true, isFucked_eq_true_iff]
  rintro ⟨i, hi⟩
  have := h i
  rcases hi with hi | hi <;> simp [Dbl.isFinite, hi] at this

theorem sampleEnv_norm_real (w : ℚ) :
    sampleEnv.norm ⟨Dbl.fin w, Dbl.fin 0, Dbl.fin 0, Dbl.fin 0⟩ = Dbl.fin |w| := by
  have h : ¬ (w * w < 0) := not_lt.mpr (mul_self_nonneg w)
  simp [sampleEnv, Dbl.mul, Dbl.add, sampleSqrt, h, Rat.sqrt_eq]

/-- C3. For every state sample that has a NaN or an infinite value in its position or in
its velocity, or whose orientation quaternion `q` satisfies
`|norm(q) - 1| > c_max_quat_norm_deviation`, `stateCallback` returns the controller as it
was: the stored position, orientation and velocity are unchanged. -/
theorem stateCallback_rejects_invalid (env : Env) (c : Controller) (msg : RovState)
    (h : (∃ i, Dbl.isNaN (msg.position i) = true ∨ Dbl.isInf (msg.position i) = true) ∨
      (∃ i, Dbl.isNaN (msg.twist i) = true ∨ Dbl.isInf (msg.twist i) = true) ∨
      Dbl.gt (Dbl.fabs (Dbl.sub (env.norm msg.orientation) (Dbl.fin 1)))
        env.c_max_quat_norm_deviation = true) :
    stateCallback env c msg = c := by
  unfold stateCallback
  rw [if_pos]
  rcases h with hp | hv | hq
  · simp [(isFucked_eq_true_iff msg.position).mpr hp]
  · simp [(isFucked_eq_true_iff msg.twist).mpr hv]
  · simp [hq]

/-- Witness of C3: a sample with a NaN depth and a sample with a quaternion of norm 3/2,
at the tolerance 1/1000. -/
theorem stateCallback_rejects_invalid_witness :
    (Dbl.isNaN (nanPositionSample.position 2) = true ∧
      stateCallback sampleEnv sampleController nanPositionSample = sampleController) ∧
    (Dbl.gt (Dbl.fabs (Dbl.sub (sampleEnv.norm longQuaternionSample.orientation) (Dbl.fin 1)))
        sampleEnv.c_max_quat_norm_deviation = true ∧
      stateCallback sampleEnv sampleController longQuaternionSample = sampleController) :=
  have hq : Dbl.gt (Dbl.fabs (Dbl.sub (sampleEnv.norm longQuaternionSample.orientation)
      (Dbl.fin 1))) sampleEnv.c_max_quat_norm_deviation = true := by
    rw [longQuaternionSample, sampleEnv_norm_real]
    norm_num [sampleEnv, Dbl.gt, Dbl.lt, Dbl.fabs, Dbl.sub, Dbl.add, Dbl.neg, abs_of_pos]
  ⟨⟨by decide,
      stateCallback_rejects_invalid sampleEnv sampleController nanPositionSample
        (Or.inl ⟨2, Or.inl (by decide)⟩)⟩,
    ⟨hq,
      stateCallback_rejects_invalid sampleEnv sampleController longQuaternionSample
        (Or.inr (Or.inr hq))⟩⟩

/-- C8. For every accepted state sample (position and velocity finite, orientation norm
within `c_max_quat_norm_deviation` of 1), `stateCallback` overwrites the state estimate
so that its position, orientation and velocity are those of the sample, whatever was
stored before; the control mode and the setpoints are left as they were. -/
theorem stateCallback_accepts_valid (env : Env) (c : Controller) (msg : RovState)
    (hp : ∀ i, Dbl.isFinite (msg.position i) = true)
    (hv : ∀ i, Dbl.isFinite (msg.twist i) = true)
    (hq : Dbl.le (Dbl.fabs (Dbl.sub (env.norm msg.orientation) (Dbl.fin 1)))
      env.c_max_quat_norm_deviation = true) :
    (stateCallback env c msg).m_state.position = msg.position ∧
    (stateCallback env c msg).m_state.orientation = msg.orientation ∧
    (stateCallback env c msg).m_state.velocity = msg.twist ∧
    (stateCallback env c msg).m_control_mode = c.m_control_mode ∧
    (stateCallback env c msg).m_setpoints = c.m_setpoints := by
  have h1 := isFucked_eq_false_of_finite msg.position hp
  have h2 := isFucked_eq_false_of_finite msg.twist hv
  have h3 : Dbl.gt (Dbl.fabs (Dbl.sub (env.norm msg.orientation) (Dbl.fin 1)))
      env.c_max_quat_norm_deviation = false := Dbl.lt_false_of_le _ _ hq
  simp [stateCallback, h1, h2, h3, State.set]

/-- Witness of C8: a valid sample replaces the stored state of the sample controller. -/
theorem stateCallback_accepts_valid_witness :
    (stateCallback sampleEnv sampleController validSample).m_state.position =
      validSample.position ∧
    (stateCallback sampleEnv sampleController validSample).m_state.orientation =
      validSample.orientation ∧
    (stateCallback sampleEnv sampleController validSample).m_state.velocity =
      validSample.twist :=
  have t := stateCallback_accepts_valid sampleEnv sampleController validSample
    (by decide)
    (by decide)
    (by
      have hn : sampleEnv.norm validSample.orientation = Dbl.fin 1 := by
        norm_num [validSample, sampleEnv, Dbl.mul, Dbl.add, sampleSqrt]
      rw [hn]
      norm_num [sampleEnv, Dbl.le, Dbl.fabs, Dbl.sub, Dbl.add, Dbl.neg])
  ⟨t.1, t.2.1, t.2.2.1⟩

/-! ## The axis holds -/

theorem depthHold_active (env : Env) (c : Controller) (tau_openloop : Vector6d)
    (ps : Vector3d) (os : Quaterniond) (vs : Vector6d) (psp : Vector3d)
    (h : Dbl.lt (Dbl.fabs (tau_openloop PoseIndex.HEAVE.idx))
      env.c_normalized_force_deadzone = true) :
    depthHold env c tau_openloop ps os vs psp =
      (c, fun i => if i = PoseIndex.HEAVE.idx then
        env.getFeedback ps Quaterniond.Identity vs psp Quaterniond.Identity i
        else Dbl.zero) := by
  unfold depthHold
  simp only [h, if_true]
  congr 1
  funext j
  fin_cases j <;> simp [Function.update, PoseIndex.idx]

theorem headingHold_active (env : Env) (c : Controller) (tau_openloop : Vector6d)
    (ps : Vector3d) (os : Quaterniond) (vs : Vector6d) (osp : Quaterniond)
    (h : Dbl.lt (Dbl.fabs (tau_openloop PoseIndex.YAW.idx))
      env.c_normalized_force_deadzone = true) :
    headingHold env c tau_openloop ps os vs osp =
      (c, fun i => if i = PoseIndex.YAW.idx then
        env.getFeedback Vector3d.Zero os vs Vector3d.Zero osp i
        else Dbl.zero) := by
  unfold headingHold
  simp only [h, if_true]
  congr 1
  funext j
  fin_cases j <;> simp [Function.update, PoseIndex.idx]

theorem depthHold_inactive (env : Env) (c : Controller) (tau_openloop : Vector6d)
    (ps : Vector3d) (os : Quaterniond) (vs : Vector6d) (psp : Vector3d)
    (h : Dbl.lt (Dbl.fabs (tau_openloop PoseIndex.HEAVE.idx))
      env.c_normalized_force_deadzone = false) :
    depthHold env c tau_openloop ps os vs psp =
      (updateSetpoint env c PoseIndex.HEAVE, Vector6d.Zero) := by
  unfold depthHold
  simp [h]

theorem headingHold_inactive (env : Env) (c : Controller) (tau_openloop : Vector6d)
    (ps : Vector3d) (os : Quaterniond) (vs : Vector6d) (osp : Quaterniond)
    (h : Dbl.lt (Dbl.fabs (tau_openloop PoseIndex.YAW.idx))
      env.c_normalized_force_deadzone = false) :
    headingHold env c tau_openloop ps os vs osp =
      (updateSetpoint env c PoseIndex.YAW, Vector6d.Zero) := by
  unfold headingHold
  simp [h]

/-- C4. Hold active: when the magnitude of the open-loop wrench on the monitored axis
(heave for `depthHold`, yaw for `headingHold`) is strictly below
`c_normalized_force_deadzone`, the wrench returned by the hold function is zero on the
five other components, carries the feedback wrench on the monitored one, and the call
returns the controller, hence the setpoints, as it was (no recentring). -/
theorem hold_active_only_monitored_axis (env : Env)
    (cd : Controller) (tau_d : Vector6d) (psd : Vector3d) (osd : Quaterniond)
    (vsd : Vector6d) (psp : Vector3d)
    (ch : Controller) (tau_h : Vector6d) (psh : Vector3d) (osh : Quaterniond)
    (vsh : Vector6d) (osp : Quaterniond)
    (hd : Dbl.lt (Dbl.fabs (tau_d PoseIndex.HEAVE.idx))
      env.c_normalized_force_deadzone = true)
    (hh : Dbl.lt (Dbl.fabs (tau_h PoseIndex.YAW.idx))
      env.c_normalized_force_deadzone = true) :
    ((depthHold env cd tau_d psd osd vsd psp).1 = cd ∧
      (∀ i, i ≠ PoseIndex.HEAVE.idx →
        (depthHold env cd tau_d psd osd vsd psp).2 i = Dbl.zero) ∧
      (depthHold env cd tau_d psd osd vsd psp).2 PoseIndex.HEAVE.idx =
        env.getFeedback psd Quaterniond.Identity vsd psp Quaterniond.Identity
          PoseIndex.HEAVE.idx) ∧
    ((headingHold env ch tau_h psh osh vsh osp).1 = ch ∧
      (∀ i, i ≠ PoseIndex.YAW.idx →
        (headingHold env ch tau_h psh osh vsh osp).2 i = Dbl.zero) ∧
      (headingHold env ch tau_h psh osh vsh osp).2 PoseIndex.YAW.idx =
        env.getFeedback Vector3d.Zero osh vsh Vector3d.Zero osp PoseIndex.YAW.idx) := by
  rw [depthHold_active env cd tau_d psd osd vsd psp hd,
    headingHold_active env ch tau_h psh osh vsh osp hh]
  refine ⟨⟨rfl, ?_, ?_⟩, ⟨rfl, ?_, ?_⟩⟩
  · intro i hi
    simp [hi]
  · simp
  · intro i hi
    simp [hi]
  · simp

/-- Witness of C4: the sample controller with an open-loop wrench of zero, under a
feedback law that is one on every axis. -/
theorem hold_active_only_monitored_axis_witness :
    Dbl.lt (Dbl.fabs (restingWrench PoseIndex.HEAVE.idx))
      sampleEnv.c_normalized_force_deadzone = true ∧
    Dbl.lt (Dbl.fabs (restingWrench PoseIndex.YAW.idx))
      sampleEnv.c_normalized_force_deadzone = true ∧
    (depthHold sampleEnv sampleController restingWrench sampleController.m_state.position
      sampleController.m_state.orientation sampleController.m_state.velocity
      sampleController.m_setpoints.position).1 = sampleController ∧
    (headingHold sampleEnv sampleController restingWrench sampleController.m_state.position
      sampleController.m_state.orientation sampleController.m_state.velocity
      sampleController.m_setpoints.orientation).1 = sampleController :=
  have hd : Dbl.lt (Dbl.fabs (restingWrench PoseIndex.HEAVE.idx))
      sampleEnv.c_normalized_force_deadzone = true := by
    norm_num [restingWrench, sampleEnv, Dbl.lt, Dbl.fabs]
  have hh : Dbl.lt (Dbl.fabs (restingWrench PoseIndex.YAW.idx))
      sampleEnv.c_normalized_force_deadzone = true := by
    norm_num [restingWrench, sampleEnv, Dbl.lt, Dbl.fabs]
  have t := hold_active_only_monitored_axis sampleEnv
    sampleController restingWrench sampleController.m_state.position
    sampleController.m_state.orientation sampleController.m_state.velocity
    sampleController.m_setpoints.position
    sampleController restingWrench sampleController.m_state.position
    sampleController.m_state.orientation sampleController.m_state.velocity
    sampleController.m_setpoints.orientation hd hh
  ⟨hd, hh, t.1.1, t.2.1⟩

theorem depthHold_wrench_eq (env : Env) (c c2 : Controller) (tau_openloop : Vector6d)
    (ps : Vector3d) (os : Quaterniond) (vs : Vector6d) (psp : Vector3d) :
    (depthHold env c tau_openloop ps os vs psp).2 =
      (depthHold env c2 tau_openloop ps os vs psp).2 := by
  cases h : Dbl.lt (Dbl.fabs (tau_openloop PoseIndex.HEAVE.idx))
      env.c_normalized_force_deadzone with
  | true => rw [depthHold_active env c _ _ _ _ _ h, depthHold_active env c2 _ _ _ _ _ h]
  | false => rw [depthHold_inactive env c _ _ _ _ _ h, depthHold_inactive env c2 _ _ _ _ _ h]

theorem headingHold_wrench_eq (env : Env) (c c2 : Controller) (tau_openloop : Vector6d)
    (ps : Vector3d) (os : Quaterniond) (vs : Vector6d) (osp : Quaterniond) :
    (headingHold env c tau_openloop ps os vs osp).2 =
      (headingHold env c2 tau_openloop ps os vs osp).2 := by
  cases h : Dbl.lt (Dbl.fabs (tau_openloop PoseIndex.YAW.idx))
      env.c_normalized_force_deadzone with
  | true => rw [headingHold_active env c _ _ _ _ _ h, headingHold_active env c2 _ _ _ _ _ h]
  | false =>
    rw [headingHold_inactive env c _ _ _ _ _ h, headingHold_inactive env c2 _ _ _ _ _ h]

theorem compositeWrench_depthHold (env : Env) (c : Controller) :
    compositeWrench env c ControlModes.DEPTH_HOLD =
      Vector6d.add c.m_setpoints.wrench
        (depthHold env c c.m_setpoints.wrench c.m_state.position c.m_state.orientation
          c.m_state.velocity c.m_setpoints.position).2 := by
  simp only [compositeWrench, spinTick, ControlModes.DEPTH_HOLD, ControlModes.OPEN_LOOP,
    ControlModes.OPEN_LOOP_RESTORING, ControlModes.STAY_LEVEL]
  simp only [Nat.reduceEqDiff, if_false, if_true]
  rw [depthHold_wrench_eq env _ c]

theorem compositeWrench_headingHold (env : Env) (c : Controller) :
    compositeWrench env c ControlModes.HEADING_HOLD =
      Vector6d.add c.m_setpoints.wrench
        (headingHold env c c.m_setpoints.wrench c.m_state.position c.m_state.orientation
          c.m_state.velocity c.m_setpoints.orientation).2 := by
  simp only [compositeWrench, spinTick, ControlModes.HEADING_HOLD, ControlModes.DEPTH_HOLD,
    ControlModes.OPEN_LOOP, ControlModes.OPEN_LOOP_RESTORING, ControlModes.STAY_LEVEL]
  simp only [Nat.reduceEqDiff, if_false, if_true]
  rw [headingHold_wrench_eq env _ c]

theorem compositeWrench_depthHeadingHold (env : Env) (c : Controller) :
    compositeWrench env c ControlModes.DEPTH_HEADING_HOLD =
      Vector6d.add
        (Vector6d.add c.m_setpoints.wrench
          (depthHold env c c.m_setpoints.wrench c.m_state.position c.m_state.orientation
            c.m_state.velocity c.m_setpoints.position).2)
        (headingHold env c c.m_setpoints.wrench c.m_state.position c.m_state.orientation
          c.m_state.velocity c.m_setpoints.orientation).2 := by
  simp only [compositeWrench, spinTick, ControlModes.DEPTH_HEADING_HOLD,
    ControlModes.HEADING_HOLD, ControlModes.DEPTH_HOLD,
    ControlModes.OPEN_LOOP, ControlModes.OPEN_LOOP_RESTORING, ControlModes.STAY_LEVEL]
  simp only [Nat.reduceEqDiff, if_false, if_true]
  rw [headingHold_wrench_eq env _ c, depthHold_wrench_eq env _ c]

theorem drivingController_holds_active :
    Dbl.lt (Dbl.fabs (drivingController.m_setpoints.wrench PoseIndex.HEAVE.idx))
      sampleEnv.c_normalized_force_deadzone = true ∧
    Dbl.lt (Dbl.fabs (drivingController.m_setpoints.wrench PoseIndex.YAW.idx))
      sampleEnv.c_normalized_force_deadzone = true := by
  have e1 : drivingController.m_setpoints.wrench PoseIndex.HEAVE.idx = Dbl.fin 0 := rfl
  have e2 : drivingController.m_setpoints.wrench PoseIndex.YAW.idx = Dbl.fin 0 := rfl
  rw [e1, e2]
  norm_num [sampleEnv, Dbl.lt, Dbl.fabs]

/-- Counterexample to C6 as stated: with the operator driving surge at 1 and both holds
active, the surge component of the `DEPTH_HEADING_HOLD` composite is 1 while the sum of
the `DEPTH_HOLD` and `HEADING_HOLD` composites has surge 2. -/
theorem compositeWrench_sum_counterexample :
    compositeWrench sampleEnv drivingController ControlModes.DEPTH_HEADING_HOLD 0 =
      Dbl.fin 1 ∧
    Vector6d.add (compositeWrench sampleEnv drivingController ControlModes.DEPTH_HOLD)
      (compositeWrench sampleEnv drivingController ControlModes.HEADING_HOLD) 0 =
      Dbl.fin 2 ∧
    compositeWrench sampleEnv drivingController ControlModes.DEPTH_HEADING_HOLD ≠
      Vector6d.add (compositeWrench sampleEnv drivingController ControlModes.DEPTH_HOLD)
        (compositeWrench sampleEnv drivingController ControlModes.HEADING_HOLD) := by
  have e0 : drivingController.m_setpoints.wrench 0 = Dbl.fin 1 := rfl
  have n2 : ¬ ((0 : Fin 6) = 2) := by decide
  have n5 : ¬ ((0 : Fin 6) = 5) := by decide
  have h1 : compositeWrench sampleEnv drivingController ControlModes.DEPTH_HEADING_HOLD 0 =
      Dbl.fin 1 := by
    rw [compositeWrench_depthHeadingHold,
      depthHold_active _ _ _ _ _ _ _ drivingController_holds_active.1,
      headingHold_active _ _ _ _ _ _ _ drivingController_holds_active.2]
    norm_num [Vector6d.add, e0, PoseIndex.idx, Dbl.zero, Dbl.add, n2, n5]
  have h2 : Vector6d.add (compositeWrench sampleEnv drivingController ControlModes.DEPTH_HOLD)
      (compositeWrench sampleEnv drivingController ControlModes.HEADING_HOLD) 0 =
      Dbl.fin 2 := by
    rw [compositeWrench_depthHold, compositeWrench_headingHold,
      depthHold_active _ _ _ _ _ _ _ drivingController_holds_active.1,
      headingHold_active _ _ _ _ _ _ _ drivingController_holds_active.2]
    norm_num [Vector6d.add, e0, PoseIndex.idx, Dbl.zero, Dbl.add, n2, n5]
  refine ⟨h1, h2, ?_⟩
  intro h
  have h3 := congrFun h 0
  rw [h1, h2] at h3
  exact absurd h3 (by decide)

/-- C6, amended. For every state, setpoint and open-loop wrench, the `DEPTH_HOLD`
composite is the open-loop wrench plus the depth-hold term, the `HEADING_HOLD` composite
is the open-loop wrench plus the heading-hold term, and the `DEPTH_HEADING_HOLD`
composite is the `DEPTH_HOLD` composite plus that same heading-hold term: the open-loop
wrench enters it once. -/
theorem compositeWrench_depth_heading (env : Env) (c : Controller) :
    compositeWrench env c ControlModes.DEPTH_HOLD =
      Vector6d.add c.m_setpoints.wrench
        (depthHold env c c.m_setpoints.wrench c.m_state.position c.m_state.orientation
          c.m_state.velocity c.m_setpoints.position).2 ∧
    compositeWrench env c ControlModes.HEADING_HOLD =
      Vector6d.add c.m_setpoints.wrench
        (headingHold env c c.m_setpoints.wrench c.m_state.position c.m_state.orientation
          c.m_state.velocity c.m_setpoints.orientation).2 ∧
    compositeWrench env c ControlModes.DEPTH_HEADING_HOLD =
      Vector6d.add (compositeWrench env c ControlModes.DEPTH_HOLD)
        (headingHold env c c.m_setpoints.wrench c.m_state.position c.m_state.orientation
          c.m_state.velocity c.m_setpoints.orientation).2 := by
  refine ⟨compositeWrench_depthHold env c, compositeWrench_headingHold env c, ?_⟩
  rw [compositeWrench_depthHeadingHold, compositeWrench_depthHold]

/-- C7. For every command accepted by `healthyMessage`, whether or not it changes the
mode, the open-loop wrench of the setpoints after `commandCallback` has the six incoming
motion components, in order; the update is applied to the setpoints as they are after
the reset that a mode change triggers. -/
theorem commandCallback_updates_wrench (c : Controller) (msg : PropulsionCommand)
    (h : healthyMessage msg = true) :
    (∀ i : Fin 6, (commandCallback c msg).m_setpoints.wrench i = msg.motion i) ∧
    (commandCallback c msg).m_setpoints =
      Setpoints.update
        (if getControlMode c msg ≠ c.m_control_mode then
          (resetSetpoints { c with m_control_mode := getControlMode c msg }).m_setpoints
        else c.m_setpoints)
        (fun i => msg.motion i) := by
  rw [commandCallback_of_healthy c msg h]
  split_ifs with hm
  · exact ⟨fun _ => rfl, rfl⟩
  · exact ⟨fun _ => rfl, rfl⟩

/-- Witness of C7: the command that selects `DEPTH_HOLD` leaves its motion vector in the
setpoints of the sample controller. -/
theorem commandCallback_updates_wrench_witness :
    healthyMessage depthHoldCommand = true ∧
    ∀ i : Fin 6, (commandCallback sampleController depthHoldCommand).m_setpoints.wrench i =
      depthHoldCommand.motion i :=
  have h : healthyMessage depthHoldCommand = true := by
    norm_num [healthyMessage, depthHoldCommand, Fin.forall_fin_succ, Dbl.gt, Dbl.lt,
      ControlModes.CONTROL_MODE_END]
  ⟨h, (commandCallback_updates_wrench sampleController depthHoldCommand h).1⟩

/-- C9. For every state, setpoint and open-loop wrench: a tick in `OPEN_LOOP` publishes
the open-loop wrench itself, a tick in `OPEN_LOOP_RESTORING` publishes the open-loop
wrench plus `getRestoring` of the current orientation, and in both modes the tick returns
the controller, hence the setpoints, as it was. -/
theorem spinTick_open_loop (env : Env) (c : Controller) :
    spinTick env { c with m_control_mode := ControlModes.OPEN_LOOP } =
      ({ c with m_control_mode := ControlModes.OPEN_LOOP }, c.m_setpoints.wrench) ∧
    spinTick env { c with m_control_mode := ControlModes.OPEN_LOOP_RESTORING } =
      ({ c with m_control_mode := ControlModes.OPEN_LOOP_RESTORING },
        Vector6d.add c.m_setpoints.wrench (env.getRestoring c.m_state.orientation)) := by
  constructor
  · simp [spinTick]
  · simp [spinTick, ControlModes.OPEN_LOOP, ControlModes.OPEN_LOOP_RESTORING]

/-- C10. If the control mode is none of the six enumerated modes when a tick runs, the
tick publishes the zero wrench, whatever the open-loop wrench, the state and the
setpoints are, and returns the controller as it was. -/
theorem spinTick_unknown_mode (env : Env) (c : Controller)
    (h : ∀ m ∈ [ControlModes.OPEN_LOOP, ControlModes.OPEN_LOOP_RESTORING,
      ControlModes.STAY_LEVEL, ControlModes.DEPTH_HOLD, ControlModes.HEADING_HOLD,
      ControlModes.DEPTH_HEADING_HOLD], c.m_control_mode ≠ m) :
    spinTick env c = (c, Vector6d.Zero) := by
  simp only [List.mem_cons, List.mem_singleton, forall_eq_or_imp, forall_eq,
    List.not_mem_nil, false_implies, implies_true, and_true] at h
  obtain ⟨h0, h1, h2, h3, h4, h5⟩ := h
  simp [spinTick, h0, h1, h2, h3, h4, h5]

/-- Witness of C10: the sample controller with the mode value 7. -/
theorem spinTick_unknown_mode_witness :
    strayModeController.m_control_mode = 7 ∧
    spinTick sampleEnv strayModeController = (strayModeController, Vector6d.Zero) :=
  ⟨rfl, spinTick_unknown_mode sampleEnv strayModeController (by decide)⟩

/-! ## Reachable control modes -/

theorem getControlModeLoop_range (cur : ControlMode) (bits : List Bool) (i : Nat) :
    getControlModeLoop cur bits i = cur ∨
      ∃ r : Nat, getControlModeLoop cur bits i = r ∧ i ≤ r ∧ r < i + bits.length := by
  induction bits generalizing i with
  | nil => exact Or.inl rfl
  | cons b bs ih =>
    cases b with
    | true =>
      right
      exact ⟨i, by simp [getControlModeLoop], Nat.le_refl i, by simp⟩
    | false =>
      simp only [getControlModeLoop, Bool.false_eq_true, if_false, List.length_cons]
      rcases ih (i + 1) with h | ⟨r, h0, h1, h2⟩
      · exact Or.inl h
      · exact Or.inr ⟨r, h0, by omega, by omega⟩

theorem healthyMessage_length (msg : PropulsionCommand) (h : healthyMessage msg = true) :
    msg.control_mode.length = ControlModes.CONTROL_MODE_END := by
  unfold healthyMessage at h
  split_ifs at h with h1 h2 h3
  exact not_not.mp h2

theorem commandCallback_mode_lt (c : Controller) (msg : PropulsionCommand)
    (h : c.m_control_mode < ControlModes.CONTROL_MODE_END) :
    (commandCallback c msg).m_control_mode < ControlModes.CONTROL_MODE_END := by
  cases hh : healthyMessage msg with
  | false =>
    have : commandCallback c msg = c := by
      unfold commandCallback
      rw [hh]
      rfl
    rw [this]
    exact h
  | true =>
    rw [commandCallback_mode_of_healthy c msg hh]
    rcases getControlModeLoop_range c.m_control_mode msg.control_mode 0 with
      h1 | ⟨r, h0, _, h2⟩
    · rw [getControlMode, h1]
      exact h
    · rw [healthyMessage_length msg hh, Nat.zero_add] at h2
      rw [getControlMode, h0]
      exact h2

theorem stateCallback_mode (env : Env) (c : Controller) (msg : RovState) :
    (stateCallback env c msg).m_control_mode = c.m_control_mode := by
  unfold stateCallback
  dsimp only
  split_ifs <;> rfl

theorem updateSetpoint_mode (env : Env) (c : Controller) (axis : PoseIndex) :
    (updateSetpoint env c axis).m_control_mode = c.m_control_mode := by
  cases axis <;> rfl

theorem updateSetpoint_state (env : Env) (c : Controller) (axis : PoseIndex) :
    (updateSetpoint env c axis).m_state = c.m_state := by
  cases axis <;> rfl

theorem depthHold_mode (env : Env) (c : Controller) (tau_openloop : Vector6d)
    (ps : Vector3d) (os : Quaterniond) (vs : Vector6d) (psp : Vector3d) :
    (depthHold env c tau_openloop ps os vs psp).1.m_control_mode = c.m_control_mode := by
  cases h : Dbl.lt (Dbl.fabs (tau_openloop PoseIndex.HEAVE.idx))
      env.c_normalized_force_deadzone with
  | true => rw [depthHold_active env c _ _ _ _ _ h]
  | false => rw [depthHold_inactive env c _ _ _ _ _ h, updateSetpoint_mode]

theorem headingHold_mode (env : Env) (c : Controller) (tau_openloop : Vector6d)
    (ps : Vector3d) (os : Quaterniond) (vs : Vector6d) (osp : Quaterniond) :
    (headingHold env c tau_openloop ps os vs osp).1.m_control_mode = c.m_control_mode := by
  cases h : Dbl.lt (Dbl.fabs (tau_openloop PoseIndex.YAW.idx))
      env.c_normalized_force_deadzone with
  | true => rw [headingHold_active env c _ _ _ _ _ h]
  | false => rw [headingHold_inactive env c _ _ _ _ _ h, updateSetpoint_mode]

theorem spinTick_mode (env : Env) (c : Controller) :
    (spinTick env c).1.m_control_mode = c.m_control_mode := by
  unfold spinTick
  dsimp only
  split_ifs
  · rfl
  · rfl
  · rfl
  · exact depthHold_mode env c _ _ _ _ _
  · exact headingHold_mode env c _ _ _ _ _
  · rw [headingHold_mode, depthHold_mode]
  · rfl

theorem step_mode_lt (env : Env) (c : Controller) (e : Event)
    (h : c.m_control_mode < ControlModes.CONTROL_MODE_END) :
    (step env c e).m_control_mode < ControlModes.CONTROL_MODE_END := by
  cases e with
  | command msg => exact commandCallback_mode_lt c msg h
  | state msg =>
    show (stateCallback env c msg).m_control_mode < _
    rw [stateCallback_mode]
    exact h
  | tick =>
    show (spinTick env c).1.m_control_mode < _
    rw [spinTick_mode]
    exact h

theorem run_mode_lt (env : Env) (c : Controller) (events : List Event)
    (h : c.m_control_mode < ControlModes.CONTROL_MODE_END) :
    (run env c events).m_control_mode < ControlModes.CONTROL_MODE_END := by
  induction events generalizing c with
  | nil => exact h
  | cons e es ih => exact ih (step env c e) (step_mode_lt env c e h)

/-- C11. Starting from the initial mode `OPEN_LOOP`, after any finite sequence of
commands (well-formed or not), state samples and ticks, in any order, the control mode
is one of the six enumerated values, so the tick that follows does not reach the
default branch of its dispatch; a state sample and a tick never change the mode. -/
theorem control_mode_stays_enumerated (env : Env) (state : State) (setpoints : Setpoints)
    (events : List Event) :
    (run env (initialController state setpoints) events).m_control_mode ∈
      [ControlModes.OPEN_LOOP, ControlModes.OPEN_LOOP_RESTORING, ControlModes.STAY_LEVEL,
        ControlModes.DEPTH_HOLD, ControlModes.HEADING_HOLD,
        ControlModes.DEPTH_HEADING_HOLD] ∧
    (∀ (c : Controller) (msg : RovState),
      (step env c (Event.state msg)).m_control_mode = c.m_control_mode) ∧
    (∀ c : Controller, (step env c Event.tick).m_control_mode = c.m_control_mode) := by
  refine ⟨?_, fun c msg => stateCallback_mode env c msg, fun c => spinTick_mode env c⟩
  have h := run_mode_lt env (initialController state setpoints) events (Nat.zero_lt_succ 5)
  revert h
  generalize (run env (initialController state setpoints) events).m_control_mode = m
  intro h
  simp only [ControlModes.CONTROL_MODE_END] at h
  simp only [ControlModes.OPEN_LOOP, ControlModes.OPEN_LOOP_RESTORING,
    ControlModes.STAY_LEVEL, ControlModes.DEPTH_HOLD, ControlModes.HEADING_HOLD,
    ControlModes.DEPTH_HEADING_HOLD, List.mem_cons, List.mem_singleton]
  have hm : (m : Nat) < 6 := h
  interval_cases m <;> simp

/-! ## Levelling and recentring -/

theorem Dbl.add_zero (a : Dbl) : Dbl.add a Dbl.zero = a := by
  cases a <;> simp [Dbl.add, Dbl.zero]

theorem stayLevel_roll (env : Env) (os : Quaterniond) (vs : Vector6d) :
    stayLevel env os vs PoseIndex.ROLL.idx = Dbl.zero := by
  simp [stayLevel, PoseIndex.idx, Function.update]

theorem stayLevel_pitch (env : Env) (os : Quaterniond) (vs : Vector6d) :
    stayLevel env os vs PoseIndex.PITCH.idx = Dbl.zero := by
  simp [stayLevel, PoseIndex.idx, Function.update]

theorem compositeWrench_stayLevel (env : Env) (c : Controller) :
    compositeWrench env c ControlModes.STAY_LEVEL =
      Vector6d.add c.m_setpoints.wrench
        (stayLevel env c.m_state.orientation c.m_state.velocity) := by
  simp [compositeWrench, spinTick, ControlModes.STAY_LEVEL, ControlModes.OPEN_LOOP,
    ControlModes.OPEN_LOOP_RESTORING]

/-- C12. For every orientation and velocity state, the wrench returned by `stayLevel`
has roll and pitch components zero, and in `STAY_LEVEL` mode the roll and pitch
components of the composite wrench equal those of the open-loop wrench. -/
theorem stayLevel_roll_pitch_zero (env : Env) (c : Controller) (orientation_state : Quaterniond)
    (velocity_state : Vector6d) :
    stayLevel env orientation_state velocity_state PoseIndex.ROLL.idx = Dbl.zero ∧
    stayLevel env orientation_state velocity_state PoseIndex.PITCH.idx = Dbl.zero ∧
    compositeWrench env c ControlModes.STAY_LEVEL PoseIndex.ROLL.idx =
      c.m_setpoints.wrench PoseIndex.ROLL.idx ∧
    compositeWrench env c ControlModes.STAY_LEVEL PoseIndex.PITCH.idx =
      c.m_setpoints.wrench PoseIndex.PITCH.idx := by
  refine ⟨stayLevel_roll env _ _, stayLevel_pitch env _ _, ?_, ?_⟩
  · rw [compositeWrench_stayLevel]
    show Dbl.add _ (stayLevel env _ _ PoseIndex.ROLL.idx) = _
    rw [stayLevel_roll, Dbl.add_zero]
  · rw [compositeWrench_stayLevel]
    show Dbl.add _ (stayLevel env _ _ PoseIndex.PITCH.idx) = _
    rw [stayLevel_pitch, Dbl.add_zero]

theorem stateCallback_of_norm_nan (env : Env) (c : Controller) (msg : RovState)
    (hp : ∀ i, Dbl.isFinite (msg.position i) = true)
    (hv : ∀ i, Dbl.isFinite (msg.twist i) = true)
    (hn : env.norm msg.orientation = Dbl.nan) :
    stateCallback env c msg =
      { c with m_state := ⟨msg.position, msg.orientation, msg.twist⟩ } := by
  have h1 := isFucked_eq_false_of_finite msg.position hp
  have h2 := isFucked_eq_false_of_finite msg.twist hv
  simp [stateCallback, h1, h2, hn, State.set, Dbl.sub, Dbl.add, Dbl.fabs, Dbl.gt, Dbl.lt]

theorem stateCallback_of_norm_pinf (env : Env) (c : Controller) (msg : RovState) (tol : ℚ)
    (hc : env.c_max_quat_norm_deviation = Dbl.fin tol)
    (hn : env.norm msg.orientation = Dbl.pinf) :
    stateCallback env c msg = c := by
  simp [stateCallback, hn, hc, Dbl.sub, Dbl.add, Dbl.neg, Dbl.fabs, Dbl.gt, Dbl.lt]

/-- C14, the code at the failing input: a state sample whose orientation quaternion has
a NaN coefficient, with finite position and velocity, is not rejected by
`stateCallback`; the NaN orientation is stored in the state estimate. -/
theorem stateCallback_stores_nan_orientation :
    (∀ i, Dbl.isFinite (nanOrientationSample.position i) = true) ∧
    (∀ i, Dbl.isFinite (nanOrientationSample.twist i) = true) ∧
    sampleEnv.norm nanOrientationSample.orientation = Dbl.nan ∧
    (stateCallback sampleEnv sampleController nanOrientationSample).m_state.orientation =
      ⟨Dbl.nan, Dbl.fin 0, Dbl.fin 0, Dbl.fin 0⟩ ∧
    stateCallback sampleEnv sampleController nanOrientationSample ≠ sampleController := by
  have hp : ∀ i, Dbl.isFinite (nanOrientationSample.position i) = true := by decide
  have hv : ∀ i, Dbl.isFinite (nanOrientationSample.twist i) = true := by decide
  have hn : sampleEnv.norm nanOrientationSample.orientation = Dbl.nan := by
    simp [sampleEnv, nanOrientationSample, Dbl.mul, Dbl.add, sampleSqrt]
  have e := stateCallback_of_norm_nan sampleEnv sampleController nanOrientationSample hp hv hn
  refine ⟨hp, hv, hn, ?_, ?_⟩
  · rw [e]
    rfl
  · intro h
    have h2 : (stateCallback sampleEnv sampleController nanOrientationSample).m_state.orientation.w
        = sampleController.m_state.orientation.w := by rw [h]
    rw [e] at h2
    exact absurd h2 (by decide)

/-- C15, the code at the failing input: a command whose surge component is NaN passes
`healthyMessage`; `commandCallback` switches the sample controller to `DEPTH_HOLD`,
resets the desired position to the state and stores the NaN in the open-loop wrench. -/
theorem commandCallback_accepts_nan_motion :
    healthyMessage nanMotionCommand = true ∧
    (commandCallback sampleController nanMotionCommand).m_control_mode =
      ControlModes.DEPTH_HOLD ∧
    (commandCallback sampleController nanMotionCommand).m_setpoints.position =
      sampleController.m_state.position ∧
    (commandCallback sampleController nanMotionCommand).m_setpoints.wrench 0 = Dbl.nan ∧
    commandCallback sampleController nanMotionCommand ≠ sampleController := by
  have h : healthyMessage nanMotionCommand = true := by decide
  have hm : getControlMode sampleController nanMotionCommand = ControlModes.DEPTH_HOLD := by
    decide
  have hne : getControlMode sampleController nanMotionCommand ≠
      sampleController.m_control_mode := by
    rw [hm]
    decide
  have e := commandCallback_of_healthy sampleController nanMotionCommand h
  rw [if_pos hne] at e
  refine ⟨h, ?_, ?_, ?_, ?_⟩
  · rw [e]
    exact hm
  · rw [e]
  · rw [e]
    rfl
  · intro h2
    have h3 : (commandCallback sampleController nanMotionCommand).m_control_mode =
        sampleController.m_control_mode := by rw [h2]
    rw [e] at h3
    exact hne h3

/-! ## Commands that keep the mode -/

theorem getControlMode_of_same (c : Controller) (msg : PropulsionCommand)
    (h : healthyMessage msg = true)
    (hs : (∀ b ∈ msg.control_mode, b = false) ∨
      msg.control_mode[c.m_control_mode]? = some true) :
    getControlMode c msg = c.m_control_mode := by
  rcases hs with hnone | hbit
  · exact getControlModeLoop_none c.m_control_mode msg.control_mode 0 hnone
  · have hlow := count_true_le_one_unique msg.control_mode (healthyMessage_count msg h)
      c.m_control_mode
    have := getControlModeLoop_first c.m_control_mode msg.control_mode 0 c.m_control_mode hbit
      (fun k hk => hlow k hbit hk)
    simpa [getControlMode] using this

theorem commandCallback_of_same (c : Controller) (msg : PropulsionCommand)
    (h : healthyMessage msg = true)
    (hs : (∀ b ∈ msg.control_mode, b = false) ∨
      msg.control_mode[c.m_control_mode]? = some true) :
    commandCallback c msg =
      { c with m_setpoints := { c.m_setpoints with wrench := msg.motion } } := by
  rw [commandCallback_of_healthy c msg h, if_neg (not_not.mpr (getControlMode_of_same c msg h hs))]

theorem iterate_commandCallback_of_same (msg : PropulsionCommand)
    (h : healthyMessage msg = true) (n : Nat) (c : Controller)
    (hs : (∀ b ∈ msg.control_mode, b = false) ∨
      msg.control_mode[c.m_control_mode]? = some true) :
    (Nat.iterate (fun k => commandCallback k msg) n c).m_control_mode = c.m_control_mode ∧
    (Nat.iterate (fun k => commandCallback k msg) n c).m_setpoints.position =
      c.m_setpoints.position ∧
    (Nat.iterate (fun k => commandCallback k msg) n c).m_setpoints.orientation =
      c.m_setpoints.orientation := by
  induction n generalizing c with
  | zero => exact ⟨rfl, rfl, rfl⟩
  | succ n ih =>
    rw [Function.iterate_succ_apply]
    have e := commandCallback_of_same c msg h hs
    have hs2 : (∀ b ∈ msg.control_mode, b = false) ∨
        msg.control_mode[(commandCallback c msg).m_control_mode]? = some true := by
      rw [e]
      exact hs
    obtain ⟨h1, h2, h3⟩ := ih (commandCallback c msg) hs2
    rw [h1, h2, h3, e]
    exact ⟨rfl, rfl, rfl⟩

/-- C16. For every accepted command that does not change the mode (no selector bit set,
or the set bit names the active mode), `commandCallback` leaves the control mode and the
desired position and orientation of the setpoints unchanged, and so does any number of
repetitions of the command. -/
theorem commandCallback_same_mode_keeps_pose (c : Controller) (msg : PropulsionCommand)
    (n : Nat) (h : healthyMessage msg = true)
    (hs : (∀ b ∈ msg.control_mode, b = false) ∨
      msg.control_mode[c.m_control_mode]? = some true) :
    ((commandCallback c msg).m_control_mode = c.m_control_mode ∧
      (commandCallback c msg).m_setpoints.position = c.m_setpoints.position ∧
      (commandCallback c msg).m_setpoints.orientation = c.m_setpoints.orientation) ∧
    ((Nat.iterate (fun k => commandCallback k msg) n c).m_control_mode = c.m_control_mode ∧
      (Nat.iterate (fun k => commandCallback k msg) n c).m_setpoints.position =
        c.m_setpoints.position ∧
      (Nat.iterate (fun k => commandCallback k msg) n c).m_setpoints.orientation =
        c.m_setpoints.orientation) := by
  refine ⟨?_, iterate_commandCallback_of_same msg h n c hs⟩
  rw [commandCallback_of_same c msg h hs]
  exact ⟨rfl, rfl, rfl⟩

/-- Witness of C16: the sample controller is in `OPEN_LOOP`, its desired position differs
from its position, and it receives three times a command that names `OPEN_LOOP`. -/
theorem commandCallback_same_mode_keeps_pose_witness :
    healthyMessage openLoopCommand = true ∧
    openLoopCommand.control_mode[sampleController.m_control_mode]? = some true ∧
    sampleController.m_setpoints.position 2 ≠ sampleController.m_state.position 2 ∧
    (Nat.iterate (fun k => commandCallback k openLoopCommand) 3
      sampleController).m_setpoints.position = sampleController.m_setpoints.position :=
  have h : healthyMessage openLoopCommand = true := by decide
  have hb : openLoopCommand.control_mode[sampleController.m_control_mode]? = some true := by
    decide
  ⟨h, hb, by decide,
    (commandCallback_same_mode_keeps_pose sampleController openLoopCommand 3 h
      (Or.inr hb)).2.2.1⟩

/-! ## The selector loop -/

/-- C18. For every selector vector, of any length and with any number of bits set, and
every current mode, `getControlMode` returns the mode whose index is the lowest index at
which a bit is set, and the current mode when no bit is set. It is a function of the
controller and the message that returns a mode only. -/
theorem getControlMode_lowest_set_bit (c : Controller) (msg : PropulsionCommand) (j : Nat)
    (c2 : Controller) (msg2 : PropulsionCommand)
    (hj : msg.control_mode[j]? = some true)
    (hlow : ∀ k, k < j → msg.control_mode[k]? = some false)
    (hnone : ∀ b ∈ msg2.control_mode, b = false) :
    getControlMode c msg = j ∧ getControlMode c2 msg2 = c2.m_control_mode := by
  constructor
  · have := getControlModeLoop_first c.m_control_mode msg.control_mode 0 j hj hlow
    simpa [getControlMode] using this
  · exact getControlModeLoop_none c2.m_control_mode msg2.control_mode 0 hnone

/-- Witness of C18: a selector of length four with bits 1 and 3 set gives mode 1, and a
selector without a set bit gives the current mode. -/
theorem getControlMode_lowest_set_bit_witness :
    shortSelectorCommand.control_mode[1]? = some true ∧
    shortSelectorCommand.control_mode[3]? = some true ∧
    getControlMode strayModeController shortSelectorCommand = 1 ∧
    getControlMode strayModeController emptySelectorCommand = 7 :=
  have t := getControlMode_lowest_set_bit strayModeController shortSelectorCommand 1
    strayModeController emptySelectorCommand (by decide)
    (by
      intro k hk
      have hk0 : k = 0 := by omega
      subst hk0
      decide)
    (by decide)
  ⟨by decide, by decide, t.1, t.2⟩

/-! ## Independence of the two holds -/

end Manta
